import Mathlib

/-
Verification of the migration-orchestration repository (girishfury/migration).

This file shallowly embeds the Python sources under src/lambdas/ as Lean
definitions and proves or refutes the frozen claims about them.

Modelling conventions:
- Python dicts are association lists `List (String × α)`; `dget` is `d.get(k)`
  (first binding wins), `dset` is `d[k] = v` (overwrite in place or append),
  matching CPython semantics for string-keyed dicts with unique keys.
- `datetime.utcnow().isoformat()` is an opaque `now : String` parameter.
- Calls to external collaborators (boto3 MGN/EC2/SNS/EventBridge, requests)
  are parameters carrying the collaborator's observable outcome; exceptions
  raised by them are the `Except.error`/`none` cases of those parameters.
- Event publishing is fire-and-forget relative to every claim's observable
  (spec 4.3), so EventBridge publishers are not part of the handler outputs.
- DynamoDB items are association lists from attribute name to `Attr D`, where
  `D` is the type of executionDetails payload values of the handler at hand.
-/

set_option maxHeartbeats 1000000

namespace Migration

/-- Association-list form of a Python string-keyed dict. -/
abbrev Dict (α : Type) : Type := List (String × α)

/-- Python `d.get(k)`: the first binding of `k`, if any. -/
def dget {α : Type} (m : Dict α) (k : String) : Option α :=
  match m with
  | [] => none
  | (k', v) :: rest => if k' = k then some v else dget rest k

/-- Python `d.get(k, default)`. -/
def dgetD {α : Type} (m : Dict α) (k : String) (d : α) : α :=
  (dget m k).getD d

/-- Python `d[k] = v`: overwrite the existing binding in place, else append. -/
def dset {α : Type} (m : Dict α) (k : String) (v : α) : Dict α :=
  match m with
  | [] => [(k, v)]
  | (k', v') :: rest => if k' = k then (k, v) :: rest else (k', v') :: dset rest k v

/-- Python truthiness of an optional string (`if not x` holds for an absent
key and for the empty string). -/
def pyTruthy : Option String → Bool
  | none => false
  | some s => !(s == "")

theorem dget_dset_self {α : Type} (m : Dict α) (k : String) (v : α) :
    dget (dset m k v) k = some v := by
  induction m with
  | nil => simp [dget, dset]
  | cons hd tl ih =>
    obtain ⟨k', v'⟩ := hd
    by_cases h : k' = k
    · simp [dget, dset, h]
    · simp [dget, dset, h, ih]

theorem dget_dset_ne {α : Type} (m : Dict α) (k k' : String) (v : α) (h : k' ≠ k) :
    dget (dset m k v) k' = dget m k' := by
  have h' : k ≠ k' := Ne.symm h
  induction m with
  | nil => simp [dget, dset, h']
  | cons hd tl ih =>
    obtain ⟨k0, v0⟩ := hd
    by_cases h0 : k0 = k
    · subst h0
      simp [dget, dset, h']
    · by_cases h1 : k0 = k'
      · simp [dget, dset, h0, h1, h, h']
      · simp [dget, dset, h0, h1, ih]

/-- DynamoDB attribute values as this system stores them: a string, a map
from phase name (or sub-key) to a payload of type `D`, or null. -/
inductive Attr (D : Type) where
  | str (s : String)
  | map (m : Dict D)
  | null
deriving DecidableEq

/-- Embeds `MigrationStateManager.update_migration_status` from
src/lambdas/common/dynamodb_helper.py (lines 41-63): the UpdateExpression
always SETs `status` and `updatedAt`; when `execution_details` is truthy
(neither `None` nor the empty dict, the Python `if execution_details:`) it
additionally SETs `executionDetails` to the passed value, replacing the
stored attribute wholesale. -/
def update_migration_status {D : Type} (item : Dict (Attr D)) (status : String)
    (now : String) (execution_details : Option (Dict D)) : Dict (Attr D) :=
  match execution_details with
  | none => dset (dset item "status" (Attr.str status)) "updatedAt" (Attr.str now)
  | some [] => dset (dset item "status" (Attr.str status)) "updatedAt" (Attr.str now)
  | some (kv :: rest) =>
      dset (dset (dset item "status" (Attr.str status)) "updatedAt" (Attr.str now))
        "executionDetails" (Attr.map (kv :: rest))

/-- Embeds `MigrationStateManager.save_migration_state` from
src/lambdas/common/dynamodb_helper.py (lines 15-34): a `put_item` of exactly
the ten listed attributes, with `status` defaulting to "PENDING",
`executionDetails` defaulting to the empty map, and the other `state.get`
lookups defaulting to null (Python `None`). -/
def save_migration_state {D : Type} (migration_id : String)
    (state : Dict (Attr D)) (now : String) : Dict (Attr D) :=
  [("migrationId", Attr.str migration_id),
   ("status", dgetD state "status" (Attr.str "PENDING")),
   ("wave", dgetD state "wave" Attr.null),
   ("appName", dgetD state "appName" Attr.null),
   ("source", dgetD state "source" Attr.null),
   ("target", dgetD state "target" Attr.null),
   ("environment", dgetD state "environment" Attr.null),
   ("updatedAt", Attr.str now),
   ("executionDetails", dgetD state "executionDetails" (Attr.map [])),
   ("correlationId", dgetD state "correlationId" Attr.null)]

/-- Merge of an execution-details delta into an existing map, written from
the words of spec 4.2 ("merges executionDetailsDelta into existing map,
never replaces it wholesale"); used to compare the spec's claimed semantics
with the code's actual replacement semantics. -/
def mergeDetails {D : Type} (old delta : Dict D) : Dict D :=
  delta.foldl (fun acc kv => dset acc kv.1 kv.2) old

theorem update_status_dget_status {D : Type} (item : Dict (Attr D))
    (st now : String) (d : Option (Dict D)) :
    dget (update_migration_status item st now d) "status" = some (Attr.str st) := by
  match d with
  | none =>
    show dget (dset (dset item "status" (Attr.str st)) "updatedAt" (Attr.str now)) "status" = _
    rw [dget_dset_ne _ _ _ _ (by decide), dget_dset_self]
  | some [] =>
    show dget (dset (dset item "status" (Attr.str st)) "updatedAt" (Attr.str now)) "status" = _
    rw [dget_dset_ne _ _ _ _ (by decide), dget_dset_self]
  | some (kv :: rest) =>
    show dget (dset (dset (dset item "status" (Attr.str st)) "updatedAt" (Attr.str now))
      "executionDetails" (Attr.map (kv :: rest))) "status" = _
    rw [dget_dset_ne _ _ _ _ (by decide), dget_dset_ne _ _ _ _ (by decide), dget_dset_self]

theorem update_status_dget_updatedAt {D : Type} (item : Dict (Attr D))
    (st now : String) (d : Option (Dict D)) :
    dget (update_migration_status item st now d) "updatedAt" = some (Attr.str now) := by
  match d with
  | none =>
    show dget (dset (dset item "status" (Attr.str st)) "updatedAt" (Attr.str now)) "updatedAt" = _
    rw [dget_dset_self]
  | some [] =>
    show dget (dset (dset item "status" (Attr.str st)) "updatedAt" (Attr.str now)) "updatedAt" = _
    rw [dget_dset_self]
  | some (kv :: rest) =>
    show dget (dset (dset (dset item "status" (Attr.str st)) "updatedAt" (Attr.str now))
      "executionDetails" (Attr.map (kv :: rest))) "updatedAt" = _
    rw [dget_dset_ne _ _ _ _ (by decide), dget_dset_self]

theorem update_status_dget_details_replaced {D : Type} (item : Dict (Attr D))
    (st now : String) (delta : Dict D) (h : delta ≠ []) :
    dget (update_migration_status item st now (some delta)) "executionDetails"
      = some (Attr.map delta) := by
  match delta, h with
  | kv :: rest, _ =>
    show dget (dset (dset (dset item "status" (Attr.str st)) "updatedAt" (Attr.str now))
      "executionDetails" (Attr.map (kv :: rest))) "executionDetails" = _
    rw [dget_dset_self]

theorem update_status_dget_frame {D : Type} (item : Dict (Attr D))
    (st now : String) (d : Option (Dict D)) (k : String)
    (h1 : k ≠ "status") (h2 : k ≠ "updatedAt") (h3 : k ≠ "executionDetails") :
    dget (update_migration_status item st now d) k = dget item k := by
  match d with
  | none =>
    show dget (dset (dset item "status" (Attr.str st)) "updatedAt" (Attr.str now)) k = _
    rw [dget_dset_ne _ _ _ _ h2, dget_dset_ne _ _ _ _ h1]
  | some [] =>
    show dget (dset (dset item "status" (Attr.str st)) "updatedAt" (Attr.str now)) k = _
    rw [dget_dset_ne _ _ _ _ h2, dget_dset_ne _ _ _ _ h1]
  | some (kv :: rest) =>
    show dget (dset (dset (dset item "status" (Attr.str st)) "updatedAt" (Attr.str now))
      "executionDetails" (Attr.map (kv :: rest))) k = _
    rw [dget_dset_ne _ _ _ _ h3, dget_dset_ne _ _ _ _ h2, dget_dset_ne _ _ _ _ h1]

theorem update_status_dget_details_kept {D : Type} (item : Dict (Attr D))
    (st now : String) (d : Option (Dict D)) (h : d = none ∨ d = some []) :
    dget (update_migration_status item st now d) "executionDetails"
      = dget item "executionDetails" := by
  rcases h with h | h <;> subst h <;>
    · show dget (dset (dset item "status" (Attr.str st)) "updatedAt" (Attr.str now))
        "executionDetails" = _
      rw [dget_dset_ne _ _ _ _ (by decide), dget_dset_ne _ _ _ _ (by decide)]

/-- Typed view of an inbound event dict as the correlation helpers in
src/lambdas/common/correlation.py read it: the optional top-level
"correlation_id" string, the optional "detail" sub-dict, the optional
"headers" sub-dict, and the remaining top-level string fields (`rest`),
e.g. the migration payload fields at ingress. -/
structure CorrEvent where
  correlation_id : Option String
  detail : Option (Dict String)
  headers : Option (Dict String)
  rest : Dict String
deriving DecidableEq

/-- Embeds `extract_correlation_id` from src/lambdas/common/correlation.py
(lines 11-26). Priority: top-level "correlation_id" (returned whatever its
value), then detail."correlation_id", then the "X-Correlation-ID" header
(only if truthy, so an empty header string falls through); otherwise a
freshly generated id. `generate_correlation_id` draws from uuid4, embedded
as the opaque parameter `fresh`. -/
def extract_correlation_id (e : CorrEvent) (fresh : String) : String :=
  match e.correlation_id with
  | some v => v
  | none =>
    match e.detail.bind (fun d => dget d "correlation_id") with
    | some v => v
    | none =>
      match e.headers with
      | some h =>
        match dget h "X-Correlation-ID" with
        | some v => if v == "" then fresh else v
        | none => fresh
      | none => fresh

/-- Embeds `inject_correlation_id` from src/lambdas/common/correlation.py
(lines 29-35): ensures a "detail" sub-dict exists, then sets its
"correlation_id" key. -/
def inject_correlation_id (e : CorrEvent) (correlationId : String) : CorrEvent :=
  { e with detail := some (dset (e.detail.getD []) "correlation_id" correlationId) }

/-- The event carries no correlation identifier at any of the three
locations `extract_correlation_id` recognizes (an empty X-Correlation-ID
header counts as absent, as in the source). -/
def noCorrelation (e : CorrEvent) : Prop :=
  e.correlation_id = none ∧
  e.detail.bind (fun d => dget d "correlation_id") = none ∧
  (∀ h, e.headers = some h → pyTruthy (dget h "X-Correlation-ID") = false)

/-- C6: for an event with no correlation identifier at any recognized
location, injecting the extracted (freshly generated) id and extracting
again returns that same id. -/
theorem C6_extract_inject_roundtrip (e : CorrEvent) (fresh fresh' : String)
    (h : noCorrelation e) :
    extract_correlation_id (inject_correlation_id e (extract_correlation_id e fresh)) fresh'
      = extract_correlation_id e fresh := by
  obtain ⟨h1, h2, h3⟩ := h
  obtain ⟨c, dt, hd, rs⟩ := e
  have hc : c = none := h1
  subst hc
  show extract_correlation_id
      ⟨none, some (dset (dt.getD []) "correlation_id"
        (extract_correlation_id ⟨none, dt, hd, rs⟩ fresh)), hd, rs⟩ fresh'
    = extract_correlation_id ⟨none, dt, hd, rs⟩ fresh
  conv_lhs => unfold extract_correlation_id
  simp only [Option.some_bind, dget_dset_self]
  rfl

/-- Witness for C6 at a concrete event with no correlation fields. -/
theorem C6_witness :
    extract_correlation_id
        (inject_correlation_id
          ⟨none, none, none, [("migrationId", "mig-1")]⟩
          (extract_correlation_id ⟨none, none, none, [("migrationId", "mig-1")]⟩ "mig-ab12cd34"))
        "mig-ff00ff00"
      = extract_correlation_id ⟨none, none, none, [("migrationId", "mig-1")]⟩ "mig-ab12cd34" := by
  exact C6_extract_inject_roundtrip ⟨none, none, none, [("migrationId", "mig-1")]⟩
    "mig-ab12cd34" "mig-ff00ff00"
    ⟨rfl, rfl, by intro h hh; cases hh⟩

/-- The ten attribute names save_migration_state persists. -/
def MIGRATION_ITEM_KEYS : List String :=
  ["migrationId", "status", "wave", "appName", "source", "target",
   "environment", "updatedAt", "executionDetails", "correlationId"]

/-- C1 as stated is false on the code: at a record whose executionDetails
already holds the validation phase's entry, a call with the non-empty delta
for the source-preparation phase stores exactly the delta — the earlier
entry is erased, so the stored map is not the merge of the old map with
the delta. -/
theorem C1_counterexample :
    dget (update_migration_status (D := String)
        [("migrationId", Attr.str "mig-1"),
         ("status", Attr.str "VALIDATED"),
         ("executionDetails", Attr.map [("validation", "ok")])]
        "SOURCE_PREPARED" "t1" (some [("sourcePreparation", "done")])) "executionDetails"
      = some (Attr.map [("sourcePreparation", "done")]) ∧
    ¬ dget (update_migration_status (D := String)
        [("migrationId", Attr.str "mig-1"),
         ("status", Attr.str "VALIDATED"),
         ("executionDetails", Attr.map [("validation", "ok")])]
        "SOURCE_PREPARED" "t1" (some [("sourcePreparation", "done")])) "executionDetails"
      = some (Attr.map (mergeDetails [("validation", "ok")] [("sourcePreparation", "done")])) := by
  exact ⟨rfl, by decide⟩

/-- C1 (amended): for every call to update_migration_status with a non-empty
execution-details delta, the stored executionDetails after the call equals
the delta itself — the previously stored map is replaced wholesale, erasing
entries recorded by earlier phases — while status and updatedAt are always
rewritten. -/
theorem C1_amended {D : Type} (item : Dict (Attr D)) (status now : String)
    (delta : Dict D) (h : delta ≠ []) :
    dget (update_migration_status item status now (some delta)) "executionDetails"
        = some (Attr.map delta) ∧
    dget (update_migration_status item status now (some delta)) "status"
        = some (Attr.str status) ∧
    dget (update_migration_status item status now (some delta)) "updatedAt"
        = some (Attr.str now) :=
  ⟨update_status_dget_details_replaced item status now delta h,
   update_status_dget_status item status now (some delta),
   update_status_dget_updatedAt item status now (some delta)⟩

/-- Witness for the amended C1 at a concrete record and delta. -/
theorem C1_witness :
    dget (update_migration_status (D := String)
        [("executionDetails", Attr.map [("validation", "ok")])]
        "SOURCE_PREPARED" "t1" (some [("sourcePreparation", "done")])) "executionDetails"
        = some (Attr.map [("sourcePreparation", "done")]) ∧
    dget (update_migration_status (D := String)
        [("executionDetails", Attr.map [("validation", "ok")])]
        "SOURCE_PREPARED" "t1" (some [("sourcePreparation", "done")])) "status"
        = some (Attr.str "SOURCE_PREPARED") ∧
    dget (update_migration_status (D := String)
        [("executionDetails", Attr.map [("validation", "ok")])]
        "SOURCE_PREPARED" "t1" (some [("sourcePreparation", "done")])) "updatedAt"
        = some (Attr.str "t1") :=
  C1_amended [("executionDetails", Attr.map [("validation", "ok")])]
    "SOURCE_PREPARED" "t1" [("sourcePreparation", "done")] (by decide)

/-- C9: when update_migration_status is called with no execution-details
argument (None or the empty dict), only status and updatedAt are written;
executionDetails and every other attribute are left unchanged. -/
theorem C9_empty_delta_frame {D : Type} (item : Dict (Attr D))
    (status now : String) (d : Option (Dict D)) (h : d = none ∨ d = some []) :
    dget (update_migration_status item status now d) "status" = some (Attr.str status) ∧
    dget (update_migration_status item status now d) "updatedAt" = some (Attr.str now) ∧
    dget (update_migration_status item status now d) "executionDetails"
        = dget item "executionDetails" ∧
    ∀ k, k ≠ "status" → k ≠ "updatedAt" →
      dget (update_migration_status item status now d) k = dget item k := by
  refine ⟨update_status_dget_status item status now d,
          update_status_dget_updatedAt item status now d,
          update_status_dget_details_kept item status now d h, ?_⟩
  intro k h1 h2
  by_cases h3 : k = "executionDetails"
  · subst h3
    exact update_status_dget_details_kept item status now d h
  · exact update_status_dget_frame item status now d k h1 h2 h3

/-- Witness for C9 at a concrete record, with a None delta. -/
theorem C9_witness :
    dget (update_migration_status (D := String)
        [("executionDetails", Attr.map [("validation", "ok")]), ("status", Attr.str "VALIDATED")]
        "VERIFIED" "t2" none) "executionDetails" = some (Attr.map [("validation", "ok")]) := by
  have h := C9_empty_delta_frame (D := String)
    [("executionDetails", Attr.map [("validation", "ok")]), ("status", Attr.str "VALIDATED")]
    "VERIFIED" "t2" none (Or.inl rfl)
  exact h.2.2.1.trans rfl

/-- C10: save_migration_state persists exactly the fixed ten-attribute set;
any other key in the passed state dict is dropped from the stored item, a
missing status defaults to PENDING, and a missing executionDetails defaults
to the empty map. -/
theorem C10_save_fixed_field_set {D : Type} (mid now : String)
    (state : Dict (Attr D)) :
    (save_migration_state mid state now).map Prod.fst = MIGRATION_ITEM_KEYS ∧
    (∀ k, k ∉ MIGRATION_ITEM_KEYS → dget (save_migration_state mid state now) k = none) ∧
    (dget state "status" = none →
      dget (save_migration_state mid state now) "status" = some (Attr.str "PENDING")) ∧
    (dget state "executionDetails" = none →
      dget (save_migration_state mid state now) "executionDetails" = some (Attr.map [])) := by
  refine ⟨rfl, ?_, ?_, ?_⟩
  · intro k hk
    simp only [MIGRATION_ITEM_KEYS, List.mem_cons, List.not_mem_nil, or_false,
      not_or] at hk
    obtain ⟨n1, n2, n3, n4, n5, n6, n7, n8, n9, n10⟩ := hk
    simp [save_migration_state, dget, Ne.symm n1, Ne.symm n2, Ne.symm n3, Ne.symm n4,
      Ne.symm n5, Ne.symm n6, Ne.symm n7, Ne.symm n8, Ne.symm n9, Ne.symm n10]
  · intro hs
    simp [save_migration_state, dget, dgetD, hs]
  · intro he
    simp [save_migration_state, dget, dgetD, he]

/-- Witness for C10 at a state dict carrying extra keys and no status or
executionDetails: sourceVmId is dropped, status defaults to PENDING,
executionDetails defaults to the empty map. -/
theorem C10_witness :
    dget (save_migration_state (D := String) "mig-1"
        [("sourceVmId", Attr.str "vm-1"), ("wave", Attr.str "w1")] "t5") "sourceVmId" = none ∧
    dget (save_migration_state (D := String) "mig-1"
        [("sourceVmId", Attr.str "vm-1"), ("wave", Attr.str "w1")] "t5") "status"
      = some (Attr.str "PENDING") ∧
    dget (save_migration_state (D := String) "mig-1"
        [("sourceVmId", Attr.str "vm-1"), ("wave", Attr.str "w1")] "t5") "executionDetails"
      = some (Attr.map []) := by
  have h := C10_save_fixed_field_set (D := String) "mig-1" "t5"
    [("sourceVmId", Attr.str "vm-1"), ("wave", Attr.str "w1")]
  exact ⟨h.2.1 "sourceVmId" (by decide), h.2.2.1 (by decide), h.2.2.2 (by decide)⟩

/-- Result payload recorded under executionDetails."sourcePreparation" by
src/lambdas/prepare_source.py: either the simulated Azure preparation dict
(lines 35-41) or the MGN integration dict (lines 63-67). -/
inductive PrepPayload where
  | azurePrep (vmId : String) (agentInstalled snapshotCreated readinessValidated : Bool)
      (preparedAt : String)
  | mgnPrep (mgnIntegrated : Bool) (sourceServersFound : Nat) (preparedAt : String)
deriving DecidableEq

/-- Embeds `validate_source_readiness` from src/lambdas/prepare_source.py
(lines 78-90): both "sourceVmId" and "source" must be present and truthy. -/
def validate_source_readiness (payload : Dict String) : Bool :=
  pyTruthy (dget payload "sourceVmId") && pyTruthy (dget payload "source")

/-- Embeds `prepare_azure_source` from src/lambdas/prepare_source.py
(lines 23-44): raises SourcePreparationError when sourceVmId is absent or
falsy, else returns the simulated preparation dict. -/
def prepare_azure_source (payload : Dict String) (now : String) :
    Except String PrepPayload :=
  match dget payload "sourceVmId" with
  | none => Except.error "Source VM ID not provided for Azure source"
  | some vm =>
    if vm == "" then Except.error "Source VM ID not provided for Azure source"
    else Except.ok (PrepPayload.azurePrep vm true true true now)

/-- Embeds `prepare_source_with_mgn` from src/lambdas/prepare_source.py
(lines 47-75): the boto3 describe_source_servers call is the parameter;
`none` is the exception case (re-raised as SourcePreparationError). -/
def prepare_source_with_mgn (mgnServers : Option Nat) (now : String) :
    Except String PrepPayload :=
  match mgnServers with
  | some n => Except.ok (PrepPayload.mgnPrep true n now)
  | none => Except.error "MGN integration failed"

/-- Response body shapes of the prepare_source lambda_handler: the 200 body
(migrationId, status SOURCE_PREPARED, details), or the 500 body from a
caught SourcePreparationError (e.to_dict with its fixed error_code). -/
inductive PrepResponse where
  | ok (migrationId : Option String) (details : PrepPayload)
  | errResp (error_code message : String)
deriving DecidableEq

/-- Embeds `lambda_handler` from src/lambdas/prepare_source.py
(lines 93-187), acting on the DynamoDB record `item` stored under the
event's migrationId: validates readiness, prepares the source (Azure branch
when detail."source" == "azure", MGN branch otherwise), then calls
update_migration_status with status SOURCE_PREPARED and the
sourcePreparation delta. No store write happens on the failure paths.
There is no read of the existing record and no check of its current
status anywhere in the handler. -/
def prepare_source_handler (ev : CorrEvent) (item : Dict (Attr PrepPayload))
    (mgnServers : Option Nat) (now : String) :
    PrepResponse × Dict (Attr PrepPayload) :=
  let detail := ev.detail.getD []
  if validate_source_readiness detail then
    match (if dget detail "source" = some "azure"
           then prepare_azure_source detail now
           else prepare_source_with_mgn mgnServers now) with
    | Except.ok p =>
        (PrepResponse.ok (dget detail "migrationId") p,
         update_migration_status item "SOURCE_PREPARED" now (some [("sourcePreparation", p)]))
    | Except.error msg => (PrepResponse.errResp "SOURCE_PREPARATION_ERROR" msg, item)
  else
    (PrepResponse.errResp "SOURCE_PREPARATION_ERROR" "Source VM is not ready for migration",
     item)

/-- C2 as stated is false on the code: a record already at VERIFIED, hit by
a replayed prepare-source event, is overwritten back to SOURCE_PREPARED and
the handler answers with a fresh 200 success, not a no-op: the stored
status regresses. -/
theorem C2_counterexample :
    dget (prepare_source_handler
        ⟨none, some [("migrationId", "mig-1"), ("source", "azure"), ("sourceVmId", "vm-1")],
         none, []⟩
        [("migrationId", Attr.str "mig-1"), ("status", Attr.str "VERIFIED")]
        none "t9").2 "status" = some (Attr.str "SOURCE_PREPARED") ∧
    ¬ dget (prepare_source_handler
        ⟨none, some [("migrationId", "mig-1"), ("source", "azure"), ("sourceVmId", "vm-1")],
         none, []⟩
        [("migrationId", Attr.str "mig-1"), ("status", Attr.str "VERIFIED")]
        none "t9").2 "status" = some (Attr.str "VERIFIED") := by
  exact ⟨rfl, by decide⟩

/-- C2 (amended): the prepare_source executor performs no check of the
record's existing status: on any re-delivered event with a valid Azure
payload it re-executes the phase, answers 200 with SOURCE_PREPARED, and
unconditionally overwrites the stored status with SOURCE_PREPARED,
whatever later state the record had reached. -/
theorem C2_amended (ev : CorrEvent) (item : Dict (Attr PrepPayload))
    (mgn : Option Nat) (now vm : String)
    (hvm : dget (ev.detail.getD []) "sourceVmId" = some vm) (hvm0 : vm ≠ "")
    (hsrc : dget (ev.detail.getD []) "source" = some "azure") :
    (prepare_source_handler ev item mgn now).1
        = PrepResponse.ok (dget (ev.detail.getD []) "migrationId")
            (PrepPayload.azurePrep vm true true true now) ∧
    dget (prepare_source_handler ev item mgn now).2 "status"
        = some (Attr.str "SOURCE_PREPARED") := by
  have hbeq : (vm == "") = false := beq_eq_false_iff_ne.mpr hvm0
  have hva : pyTruthy (dget (ev.detail.getD []) "sourceVmId") = true := by
    rw [hvm]; simp [pyTruthy, hbeq]
  have hvs : pyTruthy (dget (ev.detail.getD []) "source") = true := by
    rw [hsrc]; decide
  have hready : validate_source_readiness (ev.detail.getD []) = true := by
    simp [validate_source_readiness, hva, hvs]
  have hazure : prepare_azure_source (ev.detail.getD []) now
      = Except.ok (PrepPayload.azurePrep vm true true true now) := by
    simp [prepare_azure_source, hvm, hbeq]
  constructor
  · simp [prepare_source_handler, hready, hsrc, hazure]
  · simp [prepare_source_handler, hready, hsrc, hazure, update_status_dget_status]

/-- Witness for the amended C2: a record at VERIFIED regresses. -/
theorem C2_witness :
    (prepare_source_handler
        ⟨none, some [("migrationId", "mig-1"), ("source", "azure"), ("sourceVmId", "vm-1")],
         none, []⟩
        [("status", Attr.str "VERIFIED")] none "t9").1
      = PrepResponse.ok (some "mig-1") (PrepPayload.azurePrep "vm-1" true true true "t9") ∧
    dget (prepare_source_handler
        ⟨none, some [("migrationId", "mig-1"), ("source", "azure"), ("sourceVmId", "vm-1")],
         none, []⟩
        [("status", Attr.str "VERIFIED")] none "t9").2 "status"
      = some (Attr.str "SOURCE_PREPARED") := by
  have h := C2_amended
    ⟨none, some [("migrationId", "mig-1"), ("source", "azure"), ("sourceVmId", "vm-1")],
     none, []⟩
    [("status", Attr.str "VERIFIED")] none "t9" "vm-1" (by decide) (by decide) (by decide)
  exact ⟨h.1.trans (by decide), h.2⟩

/-- Scalar values inside a rollback step's result dict: a string or Python
None (detail.get of an absent key). -/
inductive Leaf where
  | str (s : String)
  | pynone
deriving DecidableEq

/-- Values of a rollback step's result dict in rollback_handler.py: a scalar
or one nested dict (the notification's errorDetails). -/
inductive RV where
  | leaf (l : Leaf)
  | sub (m : Dict Leaf)
deriving DecidableEq

/-- One compensation step's recorded result dict. -/
abbrev StepDict : Type := Dict RV

/-- Python value of `d.get(k)` used as a dict value: the string or None. -/
def optLeaf : Option String → Leaf
  | some s => Leaf.str s
  | none => Leaf.pynone

/-- Embeds `stop_mgn_replication` from src/lambdas/rollback_handler.py
(lines 22-45); `mgnOk` is the discontinue_from_launch call's outcome, whose
exception is re-raised as RollbackError. -/
def stop_mgn_replication (source_vm_id : String) (mgnOk : Bool) :
    Except String StepDict :=
  if mgnOk then
    Except.ok [("status", RV.leaf (Leaf.str "REPLICATION_STOPPED")),
               ("sourceVmId", RV.leaf (Leaf.str source_vm_id))]
  else Except.error "Failed to stop MGN replication"

/-- Embeds `terminate_target_instance` from src/lambdas/rollback_handler.py
(lines 48-78): an absent or falsy targetInstanceId yields the SKIPPED
("nothing to do") result; an EC2 failure raises RollbackError. -/
def terminate_target_instance (payload : Dict String) (ec2Ok : Bool) :
    Except String StepDict :=
  match dget payload "targetInstanceId" with
  | none => Except.ok [("status", RV.leaf (Leaf.str "SKIPPED")),
                       ("reason", RV.leaf (Leaf.str "No target instance ID"))]
  | some iid =>
    if iid == "" then
      Except.ok [("status", RV.leaf (Leaf.str "SKIPPED")),
                 ("reason", RV.leaf (Leaf.str "No target instance ID"))]
    else if ec2Ok then
      Except.ok [("status", RV.leaf (Leaf.str "INSTANCE_TERMINATED")),
                 ("instanceId", RV.leaf (Leaf.str iid))]
    else Except.error "Failed to terminate target instance"

/-- Embeds `restore_source_state` from src/lambdas/rollback_handler.py
(lines 81-98): unlike the terminate step, an absent or falsy sourceVmId
RAISES RollbackError instead of reporting a skip. -/
def restore_source_state (payload : Dict String) (now : String) :
    Except String StepDict :=
  match dget payload "sourceVmId" with
  | none => Except.error "Source VM ID not provided for state restoration"
  | some vm =>
    if vm == "" then Except.error "Source VM ID not provided for state restoration"
    else Except.ok [("sourceVmId", RV.leaf (Leaf.str vm)),
                    ("status", RV.leaf (Leaf.str "STATE_RESTORED")),
                    ("restoredAt", RV.leaf (Leaf.str now))]

/-- Embeds `notify_stakeholders` from src/lambdas/rollback_handler.py
(lines 101-118): a simulated notification that always reports SENT. -/
def notify_stakeholders (migration_id : Option String) (error_details : Dict Leaf)
    (now : String) : StepDict :=
  [("migrationId", RV.leaf (optLeaf migration_id)),
   ("notificationType", RV.leaf (Leaf.str "ROLLBACK_NOTIFICATION")),
   ("status", RV.leaf (Leaf.str "SENT")),
   ("sentAt", RV.leaf (Leaf.str now)),
   ("errorDetails", RV.sub error_details)]

/-- The per-step try/except wrapper in rollback_handler.lambda_handler:
a caught exception is recorded as a FAILED dict with the error text. -/
def recordStep (r : Except String StepDict) : StepDict :=
  match r with
  | Except.ok d => d
  | Except.error e => [("status", RV.leaf (Leaf.str "FAILED")),
                       ("error", RV.leaf (Leaf.str e))]

/-- The 200 response body of rollback_handler.lambda_handler. -/
structure RollbackResponse where
  migrationId : Option String
  status : String
  rollbackDetails : Dict StepDict
deriving DecidableEq

/-- Embeds `lambda_handler` from src/lambdas/rollback_handler.py
(lines 121-230): runs the four compensations in fixed order, each wrapped
so a failure is recorded and the rest still run; the mgnReplication entry
exists only when the event carried a truthy sourceVmId; finally writes the
accumulated results dict as the executionDetails delta with status
ROLLED_BACK (update_migration_status replaces the stored map with it). -/
def rollback_handler (ev : CorrEvent) (item : Dict (Attr StepDict))
    (mgnOk ec2Ok : Bool) (now : String) :
    RollbackResponse × Dict (Attr StepDict) :=
  let detail := ev.detail.getD []
  let results0 : Dict StepDict :=
    match dget detail "sourceVmId" with
    | none => []
    | some vm =>
      if vm == "" then []
      else [("mgnReplication", recordStep (stop_mgn_replication vm mgnOk))]
  let results := results0
    ++ [("targetInstance", recordStep (terminate_target_instance detail ec2Ok)),
        ("sourceState", recordStep (restore_source_state detail now)),
        ("notification", notify_stakeholders (dget detail "migrationId")
          [("errorCode", optLeaf (dget detail "errorCode")),
           ("errorMessage", optLeaf (dget detail "errorMessage"))] now)]
  (⟨dget detail "migrationId", "ROLLED_BACK", results⟩,
   update_migration_status item "ROLLED_BACK" now (some results))

/-- Status field recorded for a named compensation step. -/
def stepStatus (results : Dict StepDict) (name : String) : Option RV :=
  (dget results name).bind (fun d => dget d "status")

/-- C3 as stated is false on the code: on a rollback with no compensable
resources, the restore-source compensation is recorded as FAILED (its
helper raises when no sourceVmId exists) rather than as a
nothing-to-do success, although the final status is still ROLLED_BACK. -/
theorem C3_counterexample :
    (rollback_handler ⟨none, some [("migrationId", "mig-1")], none, []⟩
        [("status", Attr.str "VALIDATED")] true true "t3").1.status = "ROLLED_BACK" ∧
    stepStatus (rollback_handler ⟨none, some [("migrationId", "mig-1")], none, []⟩
        [("status", Attr.str "VALIDATED")] true true "t3").1.rollbackDetails "sourceState"
      = some (RV.leaf (Leaf.str "FAILED")) := by
  exact ⟨rfl, rfl⟩

/-- C3 (amended): a rollback on a migration with no compensable resources
still completes with final status ROLLED_BACK; the target-instance step
records a SKIPPED (nothing-to-do) success and the notification step
records SENT, but the replication-stop step is skipped without recording
any entry and the restore-source step is recorded as FAILED, because
restore_source_state raises when no sourceVmId was ever recorded. -/
theorem C3_amended (ev : CorrEvent) (item : Dict (Attr StepDict))
    (mgnOk ec2Ok : Bool) (now : String)
    (hsv : dget (ev.detail.getD []) "sourceVmId" = none)
    (hti : dget (ev.detail.getD []) "targetInstanceId" = none) :
    (rollback_handler ev item mgnOk ec2Ok now).1.status = "ROLLED_BACK" ∧
    dget (rollback_handler ev item mgnOk ec2Ok now).1.rollbackDetails "mgnReplication"
      = none ∧
    stepStatus (rollback_handler ev item mgnOk ec2Ok now).1.rollbackDetails "targetInstance"
      = some (RV.leaf (Leaf.str "SKIPPED")) ∧
    stepStatus (rollback_handler ev item mgnOk ec2Ok now).1.rollbackDetails "sourceState"
      = some (RV.leaf (Leaf.str "FAILED")) ∧
    stepStatus (rollback_handler ev item mgnOk ec2Ok now).1.rollbackDetails "notification"
      = some (RV.leaf (Leaf.str "SENT")) ∧
    dget (rollback_handler ev item mgnOk ec2Ok now).2 "status"
      = some (Attr.str "ROLLED_BACK") := by
  have hterm : terminate_target_instance (ev.detail.getD []) ec2Ok
      = Except.ok [("status", RV.leaf (Leaf.str "SKIPPED")),
                   ("reason", RV.leaf (Leaf.str "No target instance ID"))] := by
    simp [terminate_target_instance, hti]
  have hrest : restore_source_state (ev.detail.getD []) now
      = Except.error "Source VM ID not provided for state restoration" := by
    simp [restore_source_state, hsv]
  refine ⟨rfl, ?_, ?_, ?_, ?_, ?_⟩
  · simp [rollback_handler, hsv, dget]
  · simp [rollback_handler, hsv, hterm, recordStep, stepStatus, dget]
  · simp [rollback_handler, hsv, hrest, recordStep, stepStatus, dget]
  · simp [rollback_handler, hsv, notify_stakeholders, stepStatus, dget]
  · simp only [rollback_handler, hsv]
    exact update_status_dget_status _ _ _ _

/-- Witness for the amended C3 at a concrete minimal event. -/
theorem C3_witness :
    stepStatus (rollback_handler ⟨none, some [("migrationId", "mig-2")], none, []⟩
        [] false false "t3").1.rollbackDetails "targetInstance"
      = some (RV.leaf (Leaf.str "SKIPPED")) ∧
    stepStatus (rollback_handler ⟨none, some [("migrationId", "mig-2")], none, []⟩
        [] false false "t3").1.rollbackDetails "sourceState"
      = some (RV.leaf (Leaf.str "FAILED")) ∧
    dget (rollback_handler ⟨none, some [("migrationId", "mig-2")], none, []⟩
        [] false false "t3").2 "status" = some (Attr.str "ROLLED_BACK") := by
  have h := C3_amended ⟨none, some [("migrationId", "mig-2")], none, []⟩
    [] false false "t3" (by decide) (by decide)
  exact ⟨h.2.2.1, h.2.2.2.1, h.2.2.2.2.2⟩

/-- The executionDetails map stored on an item, as the _new handlers' record
updates read and write it (empty when absent or not a map). -/
def detailsMap {D : Type} (item : Dict (Attr D)) : Dict D :=
  match dget item "executionDetails" with
  | some (Attr.map m) => m
  | _ => []

/-- Modelled from the spec: `update_migration_state`, which
rollback_handler_new.py and verify_migration_new.py import from
common.dynamodb_helper, does not exist in the repository. Spec 4.2 fixes
its contract: updateStatus merges the executionDetailsDelta into the
existing map (never replaces it wholesale) and always rewrites status and
updatedAt. -/
def update_migration_state {D : Type} (item : Dict (Attr D)) (status now : String)
    (delta : Dict D) : Dict (Attr D) :=
  dset (dset (dset item "status" (Attr.str status)) "updatedAt" (Attr.str now))
    "executionDetails" (Attr.map (mergeDetails (detailsMap item) delta))

/-- One entry of the rollbackSteps list built by
rollback_handler_new.lambda_handler. -/
structure StepEntry where
  step : String
  success : Bool
  message : String
deriving DecidableEq

/-- Values of the executionDetails delta dicts the _new rollback handler
passes: strings, int timestamps, or the rollbackSteps list. -/
inductive NVal where
  | s (v : String)
  | i (n : Int)
  | steps (l : List StepEntry)
deriving DecidableEq

/-- Embeds `cancel_mgn_job` from src/lambdas/rollback_handler_new.py
(lines 85-121): a missing migrationId key raises KeyError into the outer
except (failure); no or falsy jobId is a nothing-to-do success; any
describe_jobs failure is swallowed by the inner except as success. Python
renders str(KeyError) with quotes; the key name stands in for it here. -/
def cancel_mgn_job (payload : Dict String) (describeOk : Bool) : Bool × String :=
  match dget payload "migrationId" with
  | none => (false, "KeyError: migrationId")
  | some _ =>
    match dget payload "jobId" with
    | none => (true, "No job to cancel")
    | some jid =>
      if jid == "" then (true, "No job to cancel")
      else if describeOk then (true, "Job cancellation processed")
      else (true, "Job cancel attempted")

/-- Embeds `revert_target_instance` from src/lambdas/rollback_handler_new.py
(lines 23-46): no or falsy targetInstanceId is a nothing-to-do success; an
EC2 terminate failure is a recorded failure with the error text. -/
def revert_target_instance (payload : Dict String) (ec2 : Except String Unit) :
    Bool × String :=
  match dget payload "migrationId" with
  | none => (false, "KeyError: migrationId")
  | some _ =>
    match dget payload "targetInstanceId" with
    | none => (true, "No target instance to revert")
    | some tid =>
      if tid == "" then (true, "No target instance to revert")
      else
        match ec2 with
        | Except.ok _ => (true, "Instance " ++ tid ++ " terminated")
        | Except.error e => (false, e)

/-- Embeds `restore_source_vm` from src/lambdas/rollback_handler_new.py
(lines 49-82): unlike the older handler's restore_source_state, no or falsy
snapshotId is a nothing-to-do success; missing migrationId/appName/source
keys raise KeyError into the except (failure); the simulated restore always
succeeds. -/
def restore_source_vm (payload : Dict String) : Bool × String :=
  match dget payload "migrationId" with
  | none => (false, "KeyError: migrationId")
  | some _ =>
    match dget payload "appName" with
    | none => (false, "KeyError: appName")
    | some _ =>
      match dget payload "snapshotId" with
      | none => (true, "No snapshot to restore from")
      | some sid =>
        if sid == "" then (true, "No snapshot to restore from")
        else
          match dget payload "source" with
          | none => (false, "KeyError: source")
          | some _ => (true, "VM restored from snapshot " ++ sid)

/-- The 200 response of rollback_handler_new.lambda_handler. -/
structure NRollbackResponse where
  statusCode : Nat
  success : Bool
  migrationId : Option String
  correlationId : String
  status : String
  rollbackSteps : List StepEntry
deriving DecidableEq

/-- Embeds `lambda_handler` from src/lambdas/rollback_handler_new.py
(lines 193-302) from the point where migration_id and payload are resolved:
first update to ROLLBACK_IN_PROGRESS, then the three compensations in fixed
order (each returning a recorded success flag and message, never raising),
then the ROLLED_BACK update whose delta carries the rollbackSteps list.
restore_previous_state and notify_stakeholders are called with their
results discarded by the source, so they have no observable effect here;
get_correlation_id (absent from the repository's correlation module) is
the `cid` parameter. -/
def rollback_handler_new (migration_id : Option String) (payload : Dict String)
    (error cid : String) (ts : Int) (now : String) (item : Dict (Attr NVal))
    (describeOk : Bool) (ec2 : Except String Unit) :
    NRollbackResponse × Dict (Attr NVal) :=
  let item1 := update_migration_state item "ROLLBACK_IN_PROGRESS" now
    [("step", NVal.s "rollback"), ("error", NVal.s error),
     ("correlationId", NVal.s cid), ("timestamp", NVal.i ts)]
  let c := cancel_mgn_job payload describeOk
  let r := revert_target_instance payload ec2
  let s := restore_source_vm payload
  let rollback_steps : List StepEntry :=
    [⟨"cancel_mgn_job", c.1, c.2⟩,
     ⟨"revert_target_instance", r.1, r.2⟩,
     ⟨"restore_source_vm", s.1, s.2⟩]
  let item2 := update_migration_state item1 "ROLLED_BACK" now
    [("step", NVal.s "rollback"), ("rollbackSteps", NVal.steps rollback_steps),
     ("error", NVal.s error), ("correlationId", NVal.s cid), ("timestamp", NVal.i ts)]
  (⟨200, true, migration_id, cid, "ROLLED_BACK", rollback_steps⟩, item2)

/-- C8 as stated is false on the active rollback_handler.py: after a full
rollback run the record's executionDetails is exactly the non-empty
per-step results dict keyed by step name; it contains no rollbackSteps
key at all, so the steps are not recorded in
executionDetails.rollbackSteps. -/
theorem C8_counterexample :
    dget (rollback_handler
        ⟨none, some [("migrationId", "mig-1"), ("sourceVmId", "vm-1"),
          ("targetInstanceId", "i-1")], none, []⟩
        [("status", Attr.str "MIGRATION_IN_PROGRESS")] true true "t6").2 "executionDetails"
      = some (Attr.map (rollback_handler
        ⟨none, some [("migrationId", "mig-1"), ("sourceVmId", "vm-1"),
          ("targetInstanceId", "i-1")], none, []⟩
        [("status", Attr.str "MIGRATION_IN_PROGRESS")] true true "t6").1.rollbackDetails) ∧
    dget (rollback_handler
        ⟨none, some [("migrationId", "mig-1"), ("sourceVmId", "vm-1"),
          ("targetInstanceId", "i-1")], none, []⟩
        [("status", Attr.str "MIGRATION_IN_PROGRESS")] true true "t6").1.rollbackDetails
        "rollbackSteps"
      = none ∧
    (rollback_handler
        ⟨none, some [("migrationId", "mig-1"), ("sourceVmId", "vm-1"),
          ("targetInstanceId", "i-1")], none, []⟩
        [("status", Attr.str "MIGRATION_IN_PROGRESS")] true true "t6").1.rollbackDetails
      ≠ [] := by
  refine ⟨rfl, rfl, by decide⟩

/-- C8 (amended): both rollback handlers run their compensations in a fixed
order with each one wrapped so a single failure does not prevent the rest
(the full ordered key list is produced for every combination of external
outcomes); the per-step results land in executionDetails.rollbackSteps only
in rollback_handler_new.py, while the active rollback_handler.py writes
them as the top-level keys of the executionDetails map it stores
(mgnReplication only when a sourceVmId was recorded). -/
theorem C8_amended (ev : CorrEvent) (item : Dict (Attr StepDict))
    (mgnOk ec2Ok : Bool) (now : String) (migration_id : Option String)
    (payload : Dict String) (error cid : String) (ts : Int)
    (nitem : Dict (Attr NVal)) (describeOk : Bool) (ec2 : Except String Unit) :
    (rollback_handler ev item mgnOk ec2Ok now).1.rollbackDetails.map Prod.fst
      = (if pyTruthy (dget (ev.detail.getD []) "sourceVmId")
         then ["mgnReplication"] else [])
        ++ ["targetInstance", "sourceState", "notification"] ∧
    dget (rollback_handler ev item mgnOk ec2Ok now).2 "executionDetails"
      = some (Attr.map (rollback_handler ev item mgnOk ec2Ok now).1.rollbackDetails) ∧
    ((rollback_handler_new migration_id payload error cid ts now nitem describeOk
        ec2).1.rollbackSteps.map StepEntry.step)
      = ["cancel_mgn_job", "revert_target_instance", "restore_source_vm"] ∧
    dget (detailsMap (rollback_handler_new migration_id payload error cid ts now nitem
        describeOk ec2).2) "rollbackSteps"
      = some (NVal.steps (rollback_handler_new migration_id payload error cid ts now
          nitem describeOk ec2).1.rollbackSteps) := by
  refine ⟨?_, ?_, rfl, ?_⟩
  · cases hsv : dget (ev.detail.getD []) "sourceVmId" with
    | none => simp [rollback_handler, hsv, pyTruthy]
    | some vm =>
      by_cases hv : (vm == "") = true
      · simp [rollback_handler, hsv, pyTruthy, hv]
      · simp [rollback_handler, hsv, pyTruthy, hv]
  · simp only [rollback_handler]
    exact update_status_dget_details_replaced _ _ _ _ (by simp)
  · simp only [rollback_handler_new, update_migration_state, detailsMap, mergeDetails,
      List.foldl, dget_dset_self]
    rw [dget_dset_ne _ _ _ _ (by decide), dget_dset_ne _ _ _ _ (by decide),
      dget_dset_ne _ _ _ _ (by decide), dget_dset_self]

/-- One MGN source server as returned by describe_source_servers, with the
replicationStatus sub-fields src/lambdas/verify_migration.py reads. -/
structure MgnServerInfo where
  status : Option String
  replicationLagSec : Option Int
  lastSeenByService : Option String
deriving DecidableEq

/-- The status_info dict built by check_mgn_replication_status. -/
structure ReplInfo where
  replicationStatus : Option String
  replicationLag : Int
  lastSeenByService : String
deriving DecidableEq

/-- Embeds `check_mgn_replication_status` from
src/lambdas/verify_migration.py (lines 23-57): `none` is a boto3 exception,
an empty item list raises a VerificationError which the function's own
except clause re-wraps; otherwise the first server's replication fields
with their `.get` defaults. -/
def check_mgn_replication_status (resp : Option (List MgnServerInfo)) :
    Except String ReplInfo :=
  match resp with
  | none => Except.error "Failed to check MGN replication status"
  | some [] =>
      Except.error "Failed to check MGN replication status: Source server not found in MGN"
  | some (server :: _) =>
      Except.ok ⟨server.status, (server.replicationLagSec).getD 0,
        (server.lastSeenByService).getD ""⟩

/-- Embeds `validate_replication_lag` from src/lambdas/verify_migration.py
(lines 60-80); the threshold defaults to 300 at its only call site. -/
def validate_replication_lag (replication_lag threshold : Int) : Bool :=
  if replication_lag > threshold then false else true

/-- The simulated health_status dict from `check_application_health`
(src/lambdas/verify_migration.py lines 83-103); the four check flags are
hard-coded to True. -/
structure HealthInfo where
  appName : Option String
  healthStatus : String
  checkedAt : String
  connectivity : Bool
  diskSpace : Bool
  memoryCheck : Bool
  cpuCheck : Bool
deriving DecidableEq

/-- Embeds `check_application_health`. -/
def check_application_health (payload : Dict String) (now : String) : HealthInfo :=
  ⟨dget payload "appName", "HEALTHY", now, true, true, true, true⟩

/-- Payloads stored under executionDetails by the verify step. -/
inductive VDetail where
  | repl (r : ReplInfo)
  | health (h : HealthInfo)
deriving DecidableEq

/-- Response bodies of verify_migration.lambda_handler: the 200 body, or
the 500 body of a caught VerificationError (e.to_dict with the fixed
VERIFICATION_ERROR code and its details map). -/
inductive VerifyResponse where
  | ok (migrationId : Option String) (replication : ReplInfo) (health : HealthInfo)
  | errResp (error_code message : String) (details : Dict NVal)
deriving DecidableEq

/-- Embeds `lambda_handler` from src/lambdas/verify_migration.py
(lines 106-209): checks MGN replication, validates the lag against the
fixed 300-second threshold (raising VerificationError with the lag in its
details when exceeded — no record write happens in that case), else runs
the health check and advances the record to VERIFIED with the replication
and health payloads as the executionDetails delta. -/
def verify_migration_handler (ev : CorrEvent) (item : Dict (Attr VDetail))
    (mgnResp : Option (List MgnServerInfo)) (now : String) :
    VerifyResponse × Dict (Attr VDetail) :=
  let detail := ev.detail.getD []
  match check_mgn_replication_status mgnResp with
  | Except.error msg =>
      (VerifyResponse.errResp "VERIFICATION_ERROR" msg [("service", NVal.s "mgn")], item)
  | Except.ok replication_status =>
    if validate_replication_lag replication_status.replicationLag 300 then
      let health := check_application_health detail now
      (VerifyResponse.ok (dget detail "migrationId") replication_status health,
       update_migration_status item "VERIFIED" now
         (some [("replication", VDetail.repl replication_status),
                ("health", VDetail.health health)]))
    else
      (VerifyResponse.errResp "VERIFICATION_ERROR"
         "Replication lag exceeds acceptable threshold"
         [("lag", NVal.i replication_status.replicationLag)], item)

/-- C4 as stated is false on the code in one respect: at lag 301 the failure
does surface with the lag in the error details, but under the error code
VERIFICATION_ERROR (the VerificationError class code), not
VERIFICATION_FAILED, and the record is not written at all. -/
theorem C4_counterexample :
    (verify_migration_handler
        ⟨none, some [("migrationId", "mig-1"), ("sourceVmId", "s-1"), ("appName", "x")],
         none, []⟩
        [] (some [⟨some "CONTINUOUS", some 301, some "t0"⟩]) "t4").1
      = VerifyResponse.errResp "VERIFICATION_ERROR"
          "Replication lag exceeds acceptable threshold" [("lag", NVal.i 301)] ∧
    "VERIFICATION_ERROR" ≠ "VERIFICATION_FAILED" ∧
    (verify_migration_handler
        ⟨none, some [("migrationId", "mig-1"), ("sourceVmId", "s-1"), ("appName", "x")],
         none, []⟩
        [] (some [⟨some "CONTINUOUS", some 301, some "t0"⟩]) "t4").2 = [] := by
  exact ⟨rfl, by decide, rfl⟩

/-- C4 (amended): replication lag is compared against the fixed 300-second
threshold: a lag of at most 300 (e.g. 299) passes verification and the
record advances to VERIFIED, while a lag above 300 (e.g. 301) fails
verification, surfacing as a VerificationError response (error code
VERIFICATION_ERROR) whose details contain the lag value, with no record
write. -/
theorem C4_amended (ev : CorrEvent) (item : Dict (Attr VDetail))
    (st : Option String) (lag : Int) (seen : Option String) (now : String) :
    (lag ≤ 300 →
      validate_replication_lag lag 300 = true ∧
      (verify_migration_handler ev item (some [⟨st, some lag, seen⟩]) now).1
        = VerifyResponse.ok (dget (ev.detail.getD []) "migrationId")
            ⟨st, lag, seen.getD ""⟩ (check_application_health (ev.detail.getD []) now) ∧
      dget (verify_migration_handler ev item (some [⟨st, some lag, seen⟩]) now).2 "status"
        = some (Attr.str "VERIFIED")) ∧
    (300 < lag →
      validate_replication_lag lag 300 = false ∧
      (verify_migration_handler ev item (some [⟨st, some lag, seen⟩]) now).1
        = VerifyResponse.errResp "VERIFICATION_ERROR"
            "Replication lag exceeds acceptable threshold" [("lag", NVal.i lag)] ∧
      (verify_migration_handler ev item (some [⟨st, some lag, seen⟩]) now).2 = item) := by
  constructor
  · intro hl
    have hv : validate_replication_lag lag 300 = true := by
      simp [validate_replication_lag, not_lt.mpr hl]
    refine ⟨hv, ?_, ?_⟩
    · simp [verify_migration_handler, check_mgn_replication_status, hv]
    · simp only [verify_migration_handler, check_mgn_replication_status,
        Option.getD_some, hv, if_true]
      exact update_status_dget_status _ _ _ _
  · intro hl
    have hv : validate_replication_lag lag 300 = false := by
      simp [validate_replication_lag, hl]
    refine ⟨hv, ?_, ?_⟩
    · simp [verify_migration_handler, check_mgn_replication_status, hv]
    · simp [verify_migration_handler, check_mgn_replication_status, hv]

/-- Witness for the amended C4 at lag 299 (passes) and lag 301 (fails). -/
theorem C4_witness :
    (validate_replication_lag 299 300 = true ∧
      (verify_migration_handler
          ⟨none, some [("migrationId", "mig-1"), ("appName", "x")], none, []⟩
          [] (some [⟨some "CONTINUOUS", some 299, some "t0"⟩]) "t4").1
        = VerifyResponse.ok
            (dget ((⟨none, some [("migrationId", "mig-1"), ("appName", "x")], none, []⟩ :
              CorrEvent).detail.getD []) "migrationId")
            ⟨some "CONTINUOUS", 299, (some "t0").getD ""⟩
            (check_application_health ((⟨none, some [("migrationId", "mig-1"),
              ("appName", "x")], none, []⟩ : CorrEvent).detail.getD []) "t4") ∧
      dget (verify_migration_handler
          ⟨none, some [("migrationId", "mig-1"), ("appName", "x")], none, []⟩
          [] (some [⟨some "CONTINUOUS", some 299, some "t0"⟩]) "t4").2 "status"
        = some (Attr.str "VERIFIED")) ∧
    (validate_replication_lag 301 300 = false ∧
      (verify_migration_handler
          ⟨none, some [("migrationId", "mig-1"), ("appName", "x")], none, []⟩
          [] (some [⟨some "CONTINUOUS", some 301, some "t0"⟩]) "t4").1
        = VerifyResponse.errResp "VERIFICATION_ERROR"
            "Replication lag exceeds acceptable threshold" [("lag", NVal.i 301)] ∧
      (verify_migration_handler
          ⟨none, some [("migrationId", "mig-1"), ("appName", "x")], none, []⟩
          [] (some [⟨some "CONTINUOUS", some 301, some "t0"⟩]) "t4").2 = []) :=
  ⟨(C4_amended ⟨none, some [("migrationId", "mig-1"), ("appName", "x")], none, []⟩
      [] (some "CONTINUOUS") 299 (some "t0") "t4").1 (by decide),
   (C4_amended ⟨none, some [("migrationId", "mig-1"), ("appName", "x")], none, []⟩
      [] (some "CONTINUOUS") 301 (some "t0") "t4").2 (by decide)⟩

/-- Required payload fields of the ingress schema. Modelled from the spec:
the schema file schemas/migration_payload.json that ingress_handler.py
loads at import time is not in the repository; spec 4.4 fixes the required
field set. -/
def REQUIRED_FIELDS : List String :=
  ["migrationId", "appName", "source", "target", "environment", "wave"]

/-- Embeds `validate_message` from src/lambdas/ingress_handler.py
(lines 26-34) over the spec-modelled schema: the first missing required
field, if any (jsonschema's ValidationError carries the violating path). -/
def validate_message (m : CorrEvent) : Option String :=
  REQUIRED_FIELDS.find? (fun f => (dget m.rest f).isNone)

/-- One SQS record: its messageId and the json.loads outcome of its body. -/
structure SqsRecord where
  messageId : String
  body : Except String CorrEvent

/-- One entry of the handler's "successful" report list. -/
structure SuccessEntry where
  messageId : String
  eventId : String
  migrationId : Option String
deriving DecidableEq

/-- A failed record's error: a caught ValidationError (message and the
violating field path) or any other caught exception rendered as a string. -/
inductive FailErr where
  | validation (message field : String)
  | other (message : String)
deriving DecidableEq

/-- One entry of the handler's "failed" report list. -/
structure FailEntry where
  messageId : String
  error : FailErr
deriving DecidableEq

/-- The per-message success/failure report of ingress_handler. -/
structure IngressReport where
  successful : List SuccessEntry
  failed : List FailEntry
deriving DecidableEq

/-- The per-record body of the loop in ingress_handler.lambda_handler
(src/lambdas/ingress_handler.py lines 57-121): parse, extract or generate
the correlation id, validate, inject, publish; any failure becomes this
record's failed entry without affecting other records. `pub` is the
EventBridge publish outcome, `fresh` the generated correlation id. -/
def process_record (pub : CorrEvent → Except String String) (fresh : String)
    (r : SqsRecord) : Except FailErr SuccessEntry :=
  match r.body with
  | Except.error e => Except.error (FailErr.other e)
  | Except.ok body0 =>
    let correlation_id := extract_correlation_id body0 fresh
    match validate_message body0 with
    | some f =>
        Except.error (FailErr.validation "Invalid migration payload: required field missing" f)
    | none =>
      let body1 := inject_correlation_id body0 correlation_id
      match pub body1 with
      | Except.error e => Except.error (FailErr.other e)
      | Except.ok event_id =>
          Except.ok ⟨r.messageId, event_id, dget body1.rest "migrationId"⟩

/-- The record loop of ingress_handler.lambda_handler, indexed so each
record gets its own generated correlation id. -/
def ingress_go (pub : CorrEvent → Except String String) (fresh : Nat → String)
    (i : Nat) (records : List SqsRecord) : IngressReport :=
  match records with
  | [] => ⟨[], []⟩
  | r :: rest =>
    let tail := ingress_go pub fresh (i + 1) rest
    match process_record pub (fresh i) r with
    | Except.ok s => ⟨s :: tail.successful, tail.failed⟩
    | Except.error e => ⟨tail.successful, ⟨r.messageId, e⟩ :: tail.failed⟩

/-- Embeds `lambda_handler` from src/lambdas/ingress_handler.py: the batch
report produced by the loop, returned with statusCode 200. -/
def ingress_handler (pub : CorrEvent → Except String String)
    (fresh : Nat → String) (records : List SqsRecord) : IngressReport :=
  ingress_go pub fresh 0 records

theorem process_record_ok_messageId (pub : CorrEvent → Except String String)
    (fresh : String) (r : SqsRecord) (s : SuccessEntry)
    (h : process_record pub fresh r = Except.ok s) : s.messageId = r.messageId := by
  unfold process_record at h
  cases hb : r.body with
  | error e => rw [hb] at h; exact Except.noConfusion h
  | ok b =>
    rw [hb] at h
    cases hv : validate_message b with
    | some f => simp [hv] at h
    | none =>
      simp only [hv] at h
      cases hp : pub (inject_correlation_id b (extract_correlation_id b fresh)) with
      | error e => rw [hp] at h; exact Except.noConfusion h
      | ok eid =>
        rw [hp] at h
        cases h
        rfl

theorem ingress_go_messageIds_perm (pub : CorrEvent → Except String String)
    (fresh : Nat → String) (records : List SqsRecord) (i : Nat) :
    ((ingress_go pub fresh i records).successful.map SuccessEntry.messageId
      ++ (ingress_go pub fresh i records).failed.map FailEntry.messageId).Perm
      (records.map SqsRecord.messageId) := by
  induction records generalizing i with
  | nil => simp [ingress_go]
  | cons r rest ih =>
    cases hp : process_record pub (fresh i) r with
    | ok s =>
      have hm := process_record_ok_messageId pub (fresh i) r s hp
      simpa [ingress_go, hp, hm] using List.Perm.cons r.messageId (ih (i + 1))
    | error e =>
      simp only [ingress_go, hp, List.map_cons, List.cons_append]
      exact List.Perm.trans List.perm_middle (List.Perm.cons _ (ih (i + 1)))

/-- C5: the ingress handler processes each inbound message independently —
every record of the batch contributes exactly one entry, tagged with its
own messageId, to either the successful or the failed list — and on the
spec's concrete scenario (one valid message mig-1 and one message missing
"source") it reports one success and one failure with the respective
messageIds. -/
theorem C5_batch_isolated_per_message (pub : CorrEvent → Except String String)
    (fresh : Nat → String) (records : List SqsRecord) :
    ((ingress_handler pub fresh records).successful.map SuccessEntry.messageId
      ++ (ingress_handler pub fresh records).failed.map FailEntry.messageId).Perm
      (records.map SqsRecord.messageId) ∧
    (ingress_handler pub fresh records).successful.length
      + (ingress_handler pub fresh records).failed.length = records.length ∧
    ingress_handler (fun _ => Except.ok "event-1") (fun _ => "mig-gen0000")
      [⟨"msg-1", Except.ok ⟨none, none, none,
          [("migrationId", "mig-1"), ("appName", "x"), ("source", "azure"),
           ("target", "aws"), ("environment", "prod"), ("wave", "w1")]⟩⟩,
       ⟨"msg-2", Except.ok ⟨none, none, none,
          [("migrationId", "mig-2"), ("appName", "x"),
           ("target", "aws"), ("environment", "prod"), ("wave", "w1")]⟩⟩]
      = ⟨[⟨"msg-1", "event-1", some "mig-1"⟩],
         [⟨"msg-2", FailErr.validation
            "Invalid migration payload: required field missing" "source"⟩]⟩ := by
  have hperm := ingress_go_messageIds_perm pub fresh records 0
  refine ⟨hperm, ?_, by decide⟩
  have hlen := hperm.length_eq
  simpa [ingress_handler, List.length_append] using hlen

/-- Outcome of the requests.post call: a final HTTP response (status code
and elapsed milliseconds) or a raised RequestException (timeouts
included). -/
inductive HttpOutcome where
  | resp (code : Nat) (elapsedMs : Nat)
  | exn (message : String)
deriving DecidableEq

/-- The success dict returned by send_callback in
src/lambdas/callback_handler.py. -/
structure SendResult where
  status : String
  statusCode : Nat
  responseTimeMs : Nat
deriving DecidableEq

/-- Embeds `send_callback` from src/lambdas/callback_handler.py
(lines 19-66): raise_for_status turns any 4xx/5xx response into an
HTTPError (a RequestException), so those and raised exceptions become the
re-raised MigrationError with code CALLBACK_ERROR. -/
def send_callback (out : HttpOutcome) : Except String SendResult :=
  match out with
  | HttpOutcome.exn msg => Except.error ("Callback request failed: " ++ msg)
  | HttpOutcome.resp code t =>
    if 400 ≤ code then Except.error ("Callback request failed: HTTP " ++ toString code)
    else Except.ok ⟨"SUCCESS", code, t⟩

/-- The callback payload built by `format_callback_payload` in
src/lambdas/callback_handler.py (lines 69-97). -/
structure CallbackPayload where
  migrationId : Option String
  status : Option String
  appName : Option String
  environment : Option String
  wave : Option String
  timestamp : String
  correlationId : String
  error : Option (Option String × Option String)
  successDetails : Option (Option String × Option String)
deriving DecidableEq

/-- Embeds `format_callback_payload`: the error pair is present exactly when
the detail carries an errorCode key, the successDetails pair exactly when
detail.status == "SUCCESS". -/
def format_callback_payload (e : CorrEvent) (now fresh : String) : CallbackPayload :=
  let d := e.detail.getD []
  { migrationId := dget d "migrationId"
    status := dget d "status"
    appName := dget d "appName"
    environment := dget d "environment"
    wave := dget d "wave"
    timestamp := now
    correlationId := extract_correlation_id e fresh
    error := if (dget d "errorCode").isSome
             then some (dget d "errorCode", dget d "errorMessage") else none
    successDetails := if dget d "status" = some "SUCCESS"
                      then some (dget d "completedAt", dget d "targetVmName") else none }

/-- Response bodies of callback_handler.lambda_handler: the no-URL skip,
the CALLBACK_SENT success, or the caught-error CALLBACK_FAILED body —
every one of them returned with statusCode 200 (the handler never
re-raises). -/
inductive CallbackResponse where
  | skipped (migrationId : Option String)
  | sent (migrationId : Option String) (details : SendResult)
  | failedResp (migrationId : Option String) (error_code message : String)
deriving DecidableEq

/-- Embeds `lambda_handler` from src/lambdas/callback_handler.py
(lines 100-187): statusCode paired with the body. The payload built by
format_callback_payload is what gets POSTed; only the delivery outcome
affects the response. -/
def callback_handler (e : CorrEvent) (out : HttpOutcome) (now fresh : String) :
    Nat × CallbackResponse :=
  let d := e.detail.getD []
  let migration_id := dget d "migrationId"
  match dget d "callbackUrl" with
  | none => (200, CallbackResponse.skipped migration_id)
  | some url =>
    if url == "" then (200, CallbackResponse.skipped migration_id)
    else
      match send_callback out with
      | Except.ok res => (200, CallbackResponse.sent migration_id res)
      | Except.error msg =>
          (200, CallbackResponse.failedResp migration_id "CALLBACK_ERROR" msg)

/-- Embeds `send_callback` from src/lambdas/callback_handler_new.py
(lines 47-88): returns a success flag and message instead of raising; codes
outside 200/201/202 are failures, any RequestException or other exception
is a failure with its text. -/
def send_callback_new (callback_url : Option String) (out : HttpOutcome) :
    Bool × String :=
  match callback_url with
  | none => (true, "No callback URL")
  | some url =>
    if url == "" then (true, "No callback URL")
    else
      match out with
      | HttpOutcome.exn msg => (false, msg)
      | HttpOutcome.resp code _ =>
        if code = 200 ∨ code = 201 ∨ code = 202 then (true, "Callback sent successfully")
        else (false, "Callback failed with status " ++ toString code)

/-- The 200 response of callback_handler_new.lambda_handler. -/
structure NCallbackResponse where
  statusCode : Nat
  success : Bool
  migrationId : Option String
  correlationId : String
  callbackSent : Bool
  callbackMessage : String
  cmdbUpdated : Bool
deriving DecidableEq

/-- Embeds `lambda_handler` from src/lambdas/callback_handler_new.py
(lines 150-207) from the point where migration_id and payload are resolved:
send_callback never raises, a failed delivery is only logged, and the
response reports success with callbackSent carrying the delivery flag.
get_correlation_id (absent from the repository's correlation module) is the
`cid` parameter; `cmdbOk` is the DynamoDB cmdbUpdate write outcome. -/
def callback_handler_new (migration_id : Option String) (payload : Dict String)
    (cid : String) (out : HttpOutcome) (cmdbOk : Bool) : NCallbackResponse :=
  let callback_url := dget payload "callbackUrl"
  let sc := send_callback_new callback_url out
  { statusCode := 200, success := true, migrationId := migration_id,
    correlationId := cid, callbackSent := sc.1, callbackMessage := sc.2,
    cmdbUpdated := cmdbOk }

/-- C7: a failed callback delivery (non-2xx response or raised
timeout/exception) is never re-raised: the active handler returns
statusCode 200 with a CALLBACK_FAILED body surfacing the error, and the
_new handler returns statusCode 200 with success=true and
callbackSent=false carrying the failure message — so the workflow step
that triggered the callback keeps its own terminal success (the
finalize-cutover handler contains no callback call at all, so its
COMPLETED response cannot depend on delivery). -/
theorem C7_callback_failure_never_raised (e : CorrEvent) (url : String)
    (out : HttpOutcome) (now fresh : String) (migration_id : Option String)
    (payload : Dict String) (cid : String) (cmdbOk : Bool)
    (hurl : dget (e.detail.getD []) "callbackUrl" = some url) (hu : url ≠ "")
    (hpay : dget payload "callbackUrl" = some url) :
    (∀ m, send_callback out = Except.error m →
      callback_handler e out now fresh
        = (200, CallbackResponse.failedResp (dget (e.detail.getD []) "migrationId")
            "CALLBACK_ERROR" m)) ∧
    ((send_callback_new (some url) out).1 = false →
      (callback_handler_new migration_id payload cid out cmdbOk).statusCode = 200 ∧
      (callback_handler_new migration_id payload cid out cmdbOk).success = true ∧
      (callback_handler_new migration_id payload cid out cmdbOk).callbackSent = false ∧
      (callback_handler_new migration_id payload cid out cmdbOk).callbackMessage
        = (send_callback_new (some url) out).2) := by
  have hbeq : (url == "") = false := beq_eq_false_iff_ne.mpr hu
  constructor
  · intro m hm
    simp [callback_handler, hurl, hbeq, hm]
  · intro hf
    refine ⟨rfl, rfl, ?_, ?_⟩
    · simp [callback_handler_new, hpay, hf]
    · simp [callback_handler_new, hpay]

/-- Witness for C7 at a concrete unreachable-URL (timeout) outcome. -/
theorem C7_witness :
    callback_handler
        ⟨none, some [("migrationId", "mig-1"), ("status", "SUCCESS"),
          ("callbackUrl", "https://cb.example/hook")], none, []⟩
        (HttpOutcome.exn "timed out") "t7" "mig-f1f1f1f1"
      = (200, CallbackResponse.failedResp (some "mig-1") "CALLBACK_ERROR"
          "Callback request failed: timed out") ∧
    (callback_handler_new (some "mig-1") [("callbackUrl", "https://cb.example/hook")]
        "mig-f1f1f1f1" (HttpOutcome.exn "timed out") true).statusCode = 200 ∧
    (callback_handler_new (some "mig-1") [("callbackUrl", "https://cb.example/hook")]
        "mig-f1f1f1f1" (HttpOutcome.exn "timed out") true).success = true ∧
    (callback_handler_new (some "mig-1") [("callbackUrl", "https://cb.example/hook")]
        "mig-f1f1f1f1" (HttpOutcome.exn "timed out") true).callbackSent = false ∧
    (callback_handler_new (some "mig-1") [("callbackUrl", "https://cb.example/hook")]
        "mig-f1f1f1f1" (HttpOutcome.exn "timed out") true).callbackMessage
      = (send_callback_new (some "https://cb.example/hook")
          (HttpOutcome.exn "timed out")).2 := by
  have h := C7_callback_failure_never_raised
    ⟨none, some [("migrationId", "mig-1"), ("status", "SUCCESS"),
      ("callbackUrl", "https://cb.example/hook")], none, []⟩
    "https://cb.example/hook" (HttpOutcome.exn "timed out") "t7" "mig-f1f1f1f1"
    (some "mig-1") [("callbackUrl", "https://cb.example/hook")] "mig-f1f1f1f1" true
    (by decide) (by decide) (by decide)
  refine ⟨(h.1 "Callback request failed: timed out" rfl).trans (by decide), h.2 rfl⟩

end Migration
